import Mathlib

/-!
Verification of the real-time session coordinator of the zizou_games client.

The definitions below are a shallow embedding of the TypeScript source:
the pinia game store (state refs, `isMyTurn`, `canMakeMove`, `makeMove`,
`joinGame`, `createGame`, `connectWebSocket`, the push-event handlers and
`reset`), the `GameWebSocket` transport manager (connect / onopen / onclose /
attemptReconnect / disconnect), and the GameView coordination layer
(`initializeGame`'s room dispatch, `startRetrying` / `stopRetrying`, the
retry interval tick and the `watch` callback), plus the occupied-cell gate of
`TicTacToeBoard.handleCellClick`.  Asynchronous network outcomes (whether a
transport open succeeded, what the move endpoint replied) are passed in as
explicit parameters; everything else follows the source line by line.
-/

namespace ZizouGames

/-- Player symbols: the union type `'X' | 'O'` used throughout the store. -/
inductive Sym
  | X
  | O
deriving DecidableEq, Repr

/-- Winner values `'X' | 'O' | 'DRAW'`; the store's nullable `winner` ref is
modelled as `Option Winner`. -/
inductive Winner
  | X
  | O
  | draw
deriving DecidableEq, Repr

/-- Game status union `'waiting' | 'ongoing' | 'finished'` (store `gameStatus`,
`Game.status` in services/api.ts). -/
inductive GameStatus
  | waiting
  | ongoing
  | finished
deriving DecidableEq, Repr

/-- One board cell: `'X' | 'O' | null`. -/
abbrev Cell := Option Sym

/-- The board is a JS array of arrays of cells (`(('X'|'O'|null)[])[]`). -/
abbrev Board := List (List Cell)

/-- `Game` record of services/api.ts. -/
structure Game where
  id : String
  player_x_id : Option String
  player_o_id : Option String
  status : GameStatus
  created_at : String
deriving DecidableEq, Repr

/-- `MoveResponse` record of services/api.ts. -/
structure MoveResponse where
  message : String
  move_id : String
  position : String
  symbol : Sym
  board : Board
  winner : Option Winner
  game_status : GameStatus
  next_turn : Option Sym
deriving DecidableEq, Repr

/-- Transport readyState of the underlying WebSocket handle. -/
inductive WsReadyState
  | connecting
  | opened
  | closing
  | closed
deriving DecidableEq, Repr

/-- `GameWebSocket` (services/websocket.ts): the nullable handle `ws` and the
`reconnectAttempts` counter.  The listeners map is omitted: no claim below
touches `on` / `off` registration. -/
structure GameWebSocket where
  ws : Option WsReadyState
  reconnectAttempts : Nat
deriving DecidableEq, Repr

/-- `maxReconnectAttempts = 5` (websocket.ts line 22). -/
def maxReconnectAttempts : Nat := 5

/-- `reconnectDelay = 1000` (websocket.ts line 23). -/
def reconnectDelay : Nat := 1000

/-- `isConnected()` (websocket.ts lines 113-115): the handle exists and its
readyState is OPEN. -/
def GameWebSocket.isConnectedB (g : GameWebSocket) : Bool :=
  decide (g.ws = some WsReadyState.opened)

/-- The `onopen` handler (websocket.ts lines 33-37): the handle is open and the
reconnect attempt counter is reset to 0 (the surrounding promise resolves). -/
def GameWebSocket.handleOpen (g : GameWebSocket) : GameWebSocket :=
  { g with ws := some WsReadyState.opened, reconnectAttempts := 0 }

/-- `attemptReconnect` (websocket.ts lines 64-74): below the cap the counter is
incremented and a `connect()` is scheduled after `reconnectDelay *
reconnectAttempts` (the already-incremented counter); at the cap nothing
happens.  The second component is the scheduled delay, if any. -/
def GameWebSocket.attemptReconnect (g : GameWebSocket) : GameWebSocket × Option Nat :=
  if g.reconnectAttempts < maxReconnectAttempts then
    let g1 := { g with reconnectAttempts := g.reconnectAttempts + 1 }
    (g1, some (reconnectDelay * g1.reconnectAttempts))
  else
    (g, none)

/-- The `onclose` handler (websocket.ts lines 53-57): clear the handle, then
`attemptReconnect`. -/
def GameWebSocket.handleClose (g : GameWebSocket) : GameWebSocket × Option Nat :=
  GameWebSocket.attemptReconnect { g with ws := none }

/-- `disconnect` (websocket.ts lines 105-111): close and clear the handle (and
clear the listeners map, which is not modelled). -/
def GameWebSocket.disconnect (g : GameWebSocket) : GameWebSocket :=
  { g with ws := none }

/-- Delays of the automatic reconnections scheduled while every connection
attempt keeps failing: each failed attempt fires `onclose`, which runs
`attemptReconnect` again.  `fuel` bounds how many close events are unrolled. -/
def failureDelays : GameWebSocket → Nat → List Nat
  | _, 0 => []
  | g, fuel + 1 =>
    match GameWebSocket.handleClose g with
    | (g1, some d) => d :: failureDelays g1 fuel
    | (_, none) => []

/-- The game store's state refs (stores/game.ts lines 405-420). -/
structure Store where
  currentGame : Option Game
  board : Board
  currentPlayer : Option Sym
  winner : Option Winner
  gameStatus : GameStatus
  playerXId : String
  playerOId : String
  myPlayerId : String
  mySymbol : Option Sym
  ws : Option GameWebSocket
  isConnected : Bool
  playersInRoom : Nat
deriving DecidableEq, Repr

/-- The initial 3x3 all-null board literal (store lines 406-410). -/
def emptyBoard : Board :=
  [[none, none, none], [none, none, none], [none, none, none]]

/-- The initial values of every store ref (store lines 405-420). -/
def initialStore : Store :=
  { currentGame := none
    board := emptyBoard
    currentPlayer := none
    winner := none
    gameStatus := GameStatus.waiting
    playerXId := ""
    playerOId := ""
    myPlayerId := ""
    mySymbol := none
    ws := none
    isConnected := false
    playersInRoom := 0 }

/-- `isMyTurn` (store lines 423-426): false when either ref is null, otherwise
symbol equality. -/
def isMyTurn (s : Store) : Bool :=
  match s.currentPlayer, s.mySymbol with
  | some c, some m => decide (c = m)
  | _, _ => false

/-- `canMakeMove` (store lines 428-430):
`gameStatus === 'ongoing' && isMyTurn && !winner`. -/
def canMakeMove (s : Store) : Bool :=
  decide (s.gameStatus = GameStatus.ongoing) && isMyTurn s
    && decide (s.winner = none)

/-- The `room_created` handler (store lines 502-507). -/
def applyRoomCreated (s : Store) (players : Nat) : Store :=
  { s with playersInRoom := players, isConnected := true }

/-- The `room_joined` handler (store lines 509-514). -/
def applyRoomJoined (s : Store) (players : Nat) : Store :=
  { s with playersInRoom := players, isConnected := true }

/-- The `player_joined` handler (store lines 516-520). -/
def applyPlayerJoined (s : Store) (players : Nat) : Store :=
  { s with playersInRoom := players }

/-- The `game_started` handler (store lines 522-527): status becomes ongoing and
the turn is set to X. -/
def applyGameStarted (s : Store) : Store :=
  { s with gameStatus := GameStatus.ongoing, currentPlayer := some Sym.X }

/-- The opposite symbol, as computed by `message.symbol === 'X' ? 'O' : 'X'`. -/
def oppSym : Sym → Sym
  | Sym.X => Sym.O
  | Sym.O => Sym.X

/-- Payload of a `move_made` push message (services/websocket.ts lines 8-17). -/
structure MoveMadeMsg where
  game_id : String
  player_id : String
  position : String
  symbol : Sym
  board : Board
  winner : Option Winner
  game_status : GameStatus
deriving DecidableEq, Repr

/-- The `move_made` handler (store lines 529-536): wholesale replacement of
board, winner and status; the turn becomes the opposite of the mover. -/
def applyMoveMade (s : Store) (m : MoveMadeMsg) : Store :=
  { s with
    board := m.board
    winner := m.winner
    gameStatus := m.game_status
    currentPlayer := some (oppSym m.symbol) }

/-- `connectWebSocket` (store lines 494-539): tear down any existing handle,
construct a fresh `GameWebSocket` (counter 0), reset `isConnected` to false,
register the five handlers, and await `connect()`.  `succeeds` abstracts
whether the transport reached "open"; either way the `isConnected` ref stays
false — it is only set by the `room_created` / `room_joined` handlers. -/
def connectWebSocket (s : Store) (succeeds : Bool) : Store :=
  { s with
    ws := some
      { ws := if succeeds then some WsReadyState.opened else none
        reconnectAttempts := 0 }
    isConnected := false }

/-- Room commands a client can send over the persistent connection. -/
inductive ClientCmd
  | create_room (room_id : String)
  | join_room (room_id : String)
deriving DecidableEq, Repr

/-- `createRoom` (store lines 541-545): sends only when the handle exists and
reports open, otherwise silently does nothing. -/
def createRoomCmds (s : Store) (gid : String) : List ClientCmd :=
  match s.ws with
  | some g => if g.isConnectedB then [ClientCmd.create_room gid] else []
  | none => []

/-- `joinRoom` (store lines 547-551). -/
def joinRoomCmds (s : Store) (gid : String) : List ClientCmd :=
  match s.ws with
  | some g => if g.isConnectedB then [ClientCmd.join_room gid] else []
  | none => []

/-- The errors `makeMove` can throw. -/
inductive MoveError
  | noActiveGame
  | notYourTurn
  | apiError
deriving DecidableEq, Repr

/-- Result of one `makeMove` call: the store afterwards, the thrown error or
returned response, whether the request/response endpoint was actually called,
and the encoded position that was sent, if any. -/
structure MoveCallResult where
  store : Store
  result : Except MoveError MoveResponse
  apiCalled : Bool
  sentPosition : Option String
deriving Repr

/-- `makeMove` (store lines 553-578): throws when there is no current game or
player id, throws when `canMakeMove` is false, otherwise encodes the position
as a row,col string and calls `api.makeMove`; on success board, winner, status
and turn are replaced wholesale from the response, on failure the error is
rethrown with no mutation.  `resp` abstracts the endpoint's outcome (`none` =
the request was rejected or failed). -/
def makeMove (s : Store) (row col : Nat) (resp : Option MoveResponse) :
    MoveCallResult :=
  if s.currentGame = none ∨ s.myPlayerId = "" then
    { store := s, result := Except.error MoveError.noActiveGame
      apiCalled := false, sentPosition := none }
  else if canMakeMove s = false then
    { store := s, result := Except.error MoveError.notYourTurn
      apiCalled := false, sentPosition := none }
  else
    let pos := toString row ++ "," ++ toString col
    match resp with
    | none =>
      { store := s, result := Except.error MoveError.apiError
        apiCalled := true, sentPosition := some pos }
    | some r =>
      { store :=
          { s with
            board := r.board
            winner := r.winner
            gameStatus := r.game_status
            currentPlayer := r.next_turn }
        result := Except.ok r, apiCalled := true, sentPosition := some pos }

/-- `board[row][col]` lookup on the JS nested arrays. -/
def boardCell (b : Board) (r c : Nat) : Option Cell :=
  (b.get? r).bind fun rowCells => rowCells.get? c

/-- The test `board[row][col] !== null` of TicTacToeBoard line 8: true exactly
when the lookup does not yield the null cell (an out-of-range lookup is not
null either, and the component only passes indices of the board it renders). -/
def cellOccupied (b : Board) (r c : Nat) : Bool :=
  decide (boardCell b r c ≠ some (none : Cell))

/-- `handleCellClick` (TicTacToeBoard lines 7-17): early-returns — invoking
neither `makeMove` nor any network request — unless `canMakeMove` holds and the
cell is null.  The boolean records whether `makeMove` was invoked. -/
def handleCellClick (s : Store) (row col : Nat) (resp : Option MoveResponse) :
    Store × Bool :=
  if canMakeMove s = false ∨ cellOccupied s.board row col = true then
    (s, false)
  else
    ((makeMove s row col resp).store, true)

/-- `joinGame` (store lines 448-462): state update applied on a successful
join response.  Note the unconditional `mySymbol = 'O'`. -/
def joinGameApply (s : Store) (g : Game) (playerId : String) : Store :=
  { s with
    currentGame := some g
    playerXId := g.player_x_id.getD ""
    playerOId := g.player_o_id.getD ""
    myPlayerId := playerId
    mySymbol := some Sym.O
    gameStatus := g.status }

/-- `createGame` (store lines 433-446): state update applied on a successful
create response.  Note the unconditional `mySymbol = 'X'`. -/
def createGameApply (s : Store) (g : Game) (playerId : String) : Store :=
  { s with
    currentGame := some g
    playerXId := g.player_x_id.getD ""
    myPlayerId := playerId
    mySymbol := some Sym.X
    gameStatus := g.status }

/-- `reset` (store lines 580-600): every ref back to its initial value, and
`disconnect()` on a live handle before clearing it.  The boolean records
whether `disconnect` was actually invoked. -/
def reset (s : Store) : Store × Bool :=
  ({ currentGame := none
     board := emptyBoard
     currentPlayer := none
     winner := none
     gameStatus := GameStatus.waiting
     playerXId := ""
     playerOId := ""
     myPlayerId := ""
     mySymbol := none
     ws := none
     isConnected := false
     playersInRoom := 0 }, s.ws.isSome)

/-- The retry interval handle of GameView (`retryInterval`, null or set). -/
structure Supervisor where
  active : Bool
deriving DecidableEq, Repr

/-- `startRetrying` (GameView lines 55-81): `if (retryInterval) return` — a
no-op while the interval is already set; otherwise the interval is installed. -/
def startRetrying (sup : Supervisor) : Supervisor :=
  if sup.active then sup else { active := true }

/-- `stopRetrying` (GameView lines 83-89): the interval is cleared. -/
def stopRetrying (_sup : Supervisor) : Supervisor :=
  { active := false }

/-- The `watch` callback on `[isConnected, playersInRoom]` (GameView lines
123-132). -/
def watchHandler (connected : Bool) (players : Nat) (sup : Supervisor) :
    Supervisor :=
  if connected = false ∨ players < 2 then startRetrying sup
  else stopRetrying sup

/-- One tick of the retry interval (GameView lines 59-80): reconnect when the
`isConnected` ref is false (failures swallowed); then, if the ref reports
connected, send the symbol-appropriate room command and stop once at least two
players are in the room.  `connSucceeds` abstracts the transport outcome of
the `connectWebSocket` attempt. -/
def retryTick (s : Store) (gid : String) (connSucceeds : Bool)
    (sup : Supervisor) : Store × List ClientCmd × Supervisor :=
  let s1 := if s.isConnected = false then connectWebSocket s connSucceeds else s
  if s1.isConnected then
    let cmds :=
      if gid = "" then []
      else
        match s1.mySymbol with
        | some Sym.X => createRoomCmds s1 gid
        | some Sym.O => joinRoomCmds s1 gid
        | none => []
    if 2 ≤ s1.playersInRoom then (s1, cmds, stopRetrying sup)
    else (s1, cmds, sup)
  else
    (s1, [], sup)

/-- The room-command block of `initializeGame` (GameView lines 28-40), run
after `connectWebSocket()` resolves: X creates, O joins; an unset symbol is
first derived by comparing `myPlayerId` with the stored role ids and assigned
before the command is sent. -/
def initRoomDispatch (s : Store) (gid : String) : Store × List ClientCmd :=
  match s.mySymbol with
  | some Sym.X => (s, createRoomCmds s gid)
  | some Sym.O => (s, joinRoomCmds s gid)
  | none =>
    if s.playerXId = s.myPlayerId then
      let s1 := { s with mySymbol := some Sym.X }
      (s1, createRoomCmds s1 gid)
    else if s.playerOId = s.myPlayerId then
      let s1 := { s with mySymbol := some Sym.O }
      (s1, joinRoomCmds s1 gid)
    else
      (s, [])

/-- The call sites at which `connect()` is awaited. -/
inductive ConnectSite
  | initializeGameSite
  | manualRetrySite
  | autoReconnectSite
deriving DecidableEq, Repr

/-- The room commands issued by the code that runs when `connect()` resolves
successfully at each call site: `initializeGame` continues with its room
dispatch (GameView lines 26-40); `retryConnection` continues with the
symbol-chosen command under an `if (gameId)` guard (GameView lines 96-104);
`attemptReconnect` attaches only an empty `catch` handler to its `connect()`
call (websocket.ts lines 67-72), so nothing at all runs on success. -/
def connectSuccessCmds (site : ConnectSite) (s : Store) (gid : String) :
    List ClientCmd :=
  match site with
  | ConnectSite.initializeGameSite => (initRoomDispatch s gid).2
  | ConnectSite.manualRetrySite =>
    if gid = "" then []
    else
      match s.mySymbol with
      | some Sym.X => createRoomCmds s gid
      | some Sym.O => joinRoomCmds s gid
      | none => []
  | ConnectSite.autoReconnectSite => []

/-- A list of push-delivered moves is accepted from store `s` when each move is
made by the symbol whose turn it is at that point (the authority only accepts
in-turn moves; locally this is the `canMakeMove` gate), the state advancing by
the `move_made` handler. -/
def acceptedFromB : Store → List MoveMadeMsg → Bool
  | _, [] => true
  | s, m :: rest =>
    decide (s.currentPlayer = some m.symbol)
      && acceptedFromB (applyMoveMade s m) rest

/-- The strictly alternating symbol sequence of length `n` starting at `t`. -/
def altSyms : Sym → Nat → List Sym
  | _, 0 => []
  | t, n + 1 => t :: altSyms (oppSym t) n

/-- A game record used in the concrete counterexample states. -/
def gameG1 : Game :=
  { id := "g1", player_x_id := some "p1", player_o_id := some "p2"
    status := GameStatus.ongoing, created_at := "t0" }

/-- A mid-game store: it is X's turn, X is the local symbol, the game is
ongoing with no winner, and cell (0,0) already holds X. -/
def midGameStore : Store :=
  { initialStore with
    currentGame := some gameG1
    myPlayerId := "p1"
    mySymbol := some Sym.X
    currentPlayer := some Sym.X
    gameStatus := GameStatus.ongoing
    winner := none
    board := [[some Sym.X, none, none], [none, none, none], [none, none, none]] }

/-- An authoritative move response used to exercise the submission path. -/
def respR1 : MoveResponse :=
  { message := "ok", move_id := "m1", position := "0,0", symbol := Sym.X
    board := [[some Sym.X, none, none], [none, none, none], [none, none, none]]
    winner := none, game_status := GameStatus.ongoing, next_turn := some Sym.O }

/-- A store whose transport handle is open and whose symbol is X, as found
right after a successful automatic reconnection. -/
def reconnectedStore : Store :=
  { initialStore with
    mySymbol := some Sym.X
    ws := some { ws := some WsReadyState.opened, reconnectAttempts := 0 } }

/-- The mid-game store with its player id cleared: `canMakeMove` is still true
(it reads neither `currentGame` nor `myPlayerId`), yet `makeMove` must throw
before any network call. -/
def noIdStore : Store :=
  { midGameStore with myPlayerId := "" }

/-- Two concrete accepted push moves: X at "0,0" then O at "1,1". -/
def wMsgs : List MoveMadeMsg :=
  [{ game_id := "g1", player_id := "p1", position := "0,0", symbol := Sym.X
     board := [[some Sym.X, none, none], [none, none, none], [none, none, none]]
     winner := none, game_status := GameStatus.ongoing },
   { game_id := "g1", player_id := "p2", position := "1,1", symbol := Sym.O
     board := [[some Sym.X, none, none], [none, some Sym.O, none], [none, none, none]]
     winner := none, game_status := GameStatus.ongoing }]

lemma canMakeMove_iff (s : Store) :
    canMakeMove s = true ↔
      s.gameStatus = GameStatus.ongoing ∧ s.winner = none ∧
        ∃ sym, s.currentPlayer = some sym ∧ s.mySymbol = some sym := by
  unfold canMakeMove isMyTurn
  cases hc : s.currentPlayer with
  | none => simp [hc]
  | some c =>
    cases hm : s.mySymbol with
    | none => simp [hc, hm]
    | some m =>
      simp only [hc, hm, Bool.and_eq_true, decide_eq_true_eq]
      constructor
      · rintro ⟨⟨hs, hcm⟩, hw⟩
        exact ⟨hs, hw, c, rfl, by rw [hcm]⟩
      · rintro ⟨hs, hw, sym, hsym, hmsym⟩
        refine ⟨⟨hs, ?_⟩, hw⟩
        cases hsym
        cases hmsym
        rfl

/-- C3: `canMakeMove` holds exactly when the status is ongoing, there is no
winner, and the current player and local symbol are the same (non-null)
symbol; in particular it is false whenever the status is not ongoing, the
winner is set, or the turn symbol differs from the local symbol. -/
theorem c3_canSubmitMove_characterization (s : Store) :
    (canMakeMove s = true ↔
      s.gameStatus = GameStatus.ongoing ∧ s.winner = none ∧
        ∃ sym, s.currentPlayer = some sym ∧ s.mySymbol = some sym) ∧
    (s.gameStatus ≠ GameStatus.ongoing ∨ s.winner ≠ none ∨
        s.currentPlayer ≠ s.mySymbol → canMakeMove s = false) := by
  refine ⟨canMakeMove_iff s, ?_⟩
  intro h
  cases hb : canMakeMove s with
  | false => rfl
  | true =>
    exfalso
    obtain ⟨hs, hw, sym, hsym, hmsym⟩ := (canMakeMove_iff s).1 hb
    rcases h with h | h | h
    · exact h hs
    · exact h hw
    · exact h (by rw [hsym, hmsym])

/-- Witness for C3 at a concrete store: the status is waiting, so the move
gate is closed. -/
theorem c3_witness : canMakeMove initialStore = false :=
  (c3_canSubmitMove_characterization initialStore).2 (Or.inl (by decide))

/-- C2: whenever `makeMove` fails — a fail-fast throw or a rejected/erroring
submission — the store afterwards is exactly the store before: board, status,
winner and turn are all unchanged. -/
theorem c2_failed_move_no_mutation (s : Store) (row col : Nat)
    (resp : Option MoveResponse) (e : MoveError)
    (h : (makeMove s row col resp).result = Except.error e) :
    (makeMove s row col resp).store = s := by
  by_cases h1 : s.currentGame = none ∨ s.myPlayerId = ""
  · simp [makeMove, h1]
  · by_cases h2 : canMakeMove s = false
    · simp [makeMove, h1, h2]
    · cases resp with
      | none => simp [makeMove, h1, h2]
      | some r => simp [makeMove, h1, h2] at h

/-- Witness for C2: a rejected submission from the mid-game store leaves the
store untouched. -/
theorem c2_witness : (makeMove midGameStore 0 1 none).store = midGameStore :=
  c2_failed_move_no_mutation midGameStore 0 1 none MoveError.apiError rfl

/-- C9: the `onopen` handler resets the reconnect attempt counter to 0, so
after any successful open a later disconnection again gets the full budget of
5 automatic attempts (delays 1000..5000). -/
theorem c9_open_resets_attempt_counter (g : GameWebSocket) :
    (g.handleOpen).reconnectAttempts = 0 ∧
      failureDelays g.handleOpen 6 = [1000, 2000, 3000, 4000, 5000] :=
  ⟨rfl, rfl⟩

/-- C6: on close, while under the cap of 5, the counter is incremented and a
reconnect is scheduled after 1000 times the attempt count; at the cap the
close clears the handle and schedules nothing, so no automatic reconnection
happens any more; from a fresh counter the successive delays are exactly
1000, 2000, 3000, 4000, 5000 and then stop. -/
theorem c6_backoff_linear_capped (g : GameWebSocket) :
    (g.reconnectAttempts < 5 →
      g.handleClose =
        ({ ws := none, reconnectAttempts := g.reconnectAttempts + 1 },
          some (1000 * (g.reconnectAttempts + 1)))) ∧
    (5 ≤ g.reconnectAttempts → g.handleClose = ({ g with ws := none }, none)) ∧
    (g.reconnectAttempts = 0 →
      failureDelays g 6 = [1000, 2000, 3000, 4000, 5000]) := by
  refine ⟨?_, ?_, ?_⟩
  · intro h
    simp [GameWebSocket.handleClose, GameWebSocket.attemptReconnect,
      maxReconnectAttempts, reconnectDelay, h]
  · intro h
    simp [GameWebSocket.handleClose, GameWebSocket.attemptReconnect,
      maxReconnectAttempts, Nat.not_lt.mpr h]
  · intro h
    obtain ⟨w, a⟩ := g
    simp only at h
    subst h
    rfl

/-- Witness for C6 at concrete counters: attempt 3 is scheduled after 3000,
the capped state schedules nothing, and a fresh counter yields the full delay
ladder. -/
theorem c6_witness :
    (GameWebSocket.mk none 2).handleClose =
        ({ ws := none, reconnectAttempts := 3 }, some 3000) ∧
      (GameWebSocket.mk none 5).handleClose =
        ({ ws := none, reconnectAttempts := 5 }, none) ∧
      failureDelays (GameWebSocket.mk none 0) 6 =
        [1000, 2000, 3000, 4000, 5000] :=
  ⟨(c6_backoff_linear_capped ⟨none, 2⟩).1 (by decide),
    (c6_backoff_linear_capped ⟨none, 5⟩).2.1 (by decide),
    (c6_backoff_linear_capped ⟨none, 0⟩).2.2 rfl⟩

/-- C10: `reset` restores every session field to its initial value — the
all-empty board, null game/turn/winner/symbol, waiting status, empty ids,
zero occupancy, no connection — clears the WebSocket handle, and calls
`disconnect` on it exactly when a live handle existed. -/
theorem c10_reset_restores_initial_state (s : Store) :
    reset s = (initialStore, s.ws.isSome) :=
  rfl

/-- C5: the watch callback re-establishes, after every relevant state change,
that the retry interval is active exactly when the connection ref is false or
fewer than two players are in the room; `startRetrying` on an active
supervisor is a no-op; and a tick stops the interval exactly when the store
reports connected with at least two players. -/
theorem c5_supervisor_level_triggered (c : Bool) (p : Nat) (sup : Supervisor) :
    ((watchHandler c p sup).active = (!c || decide (p < 2))) ∧
    (sup.active = true → startRetrying sup = sup) ∧
    (∀ (s : Store) (gid : String) (cs : Bool), sup.active = true →
      ((retryTick s gid cs sup).2.2.active = false ↔
        s.isConnected = true ∧ 2 ≤ s.playersInRoom)) := by
  refine ⟨?_, ?_, ?_⟩
  · unfold watchHandler startRetrying stopRetrying
    by_cases hs : sup.active = true <;> cases c <;> by_cases hp : p < 2 <;>
      simp [hs, hp]
  · intro h
    simp [startRetrying, h]
  · intro s gid cs hact
    cases hc : s.isConnected with
    | false =>
      simp [retryTick, hc, connectWebSocket, hact]
    | true =>
      by_cases hp : 2 ≤ s.playersInRoom
      · simp [retryTick, hc, hp, stopRetrying]
      · simp [retryTick, hc, hp, hact]

/-- Witness for C5 at concrete inputs: an active supervisor ticking on a
connected store with two players stops. -/
theorem c5_witness :
    (retryTick (applyRoomJoined initialStore 2) "g1" true
        (Supervisor.mk true)).2.2.active = false :=
  ((c5_supervisor_level_triggered true 2 ⟨true⟩).2.2
    (applyRoomJoined initialStore 2) "g1" true rfl).2 ⟨rfl, by decide⟩

/-- Counterexample to C4 as stated: on the connection-open event produced by
`GameWebSocket.attemptReconnect` — an automatic reconnect — no room command at
all is issued (the store here has an open transport and local symbol X, so a
command could have been chosen), not exactly one. -/
theorem c4_counterexample :
    connectSuccessCmds ConnectSite.autoReconnectSite reconnectedStore "g1"
        = [] ∧
      reconnectedStore.mySymbol = some Sym.X ∧
      (reconnectedStore.ws.map GameWebSocket.isConnectedB) = some true :=
  ⟨rfl, rfl, rfl⟩

/-- C4 amended: after `initializeGame`'s or `retryConnection`'s `connect()`
resolves with an open transport, exactly one room command chosen by the local
symbol is issued (X creates, O joins); the automatic reconnection inside
`GameWebSocket` runs no continuation on success, so it issues no room command
on its open events. -/
theorem c4_room_commands_by_site (s : Store) (gid : String) (g : GameWebSocket)
    (hws : s.ws = some g) (hopen : g.ws = some WsReadyState.opened)
    (hgid : gid ≠ "") :
    (s.mySymbol = some Sym.X →
      connectSuccessCmds ConnectSite.initializeGameSite s gid
          = [ClientCmd.create_room gid] ∧
        connectSuccessCmds ConnectSite.manualRetrySite s gid
          = [ClientCmd.create_room gid]) ∧
    (s.mySymbol = some Sym.O →
      connectSuccessCmds ConnectSite.initializeGameSite s gid
          = [ClientCmd.join_room gid] ∧
        connectSuccessCmds ConnectSite.manualRetrySite s gid
          = [ClientCmd.join_room gid]) ∧
    connectSuccessCmds ConnectSite.autoReconnectSite s gid = [] := by
  have hconn : GameWebSocket.isConnectedB g = true := by
    simp [GameWebSocket.isConnectedB, hopen]
  refine ⟨?_, ?_, rfl⟩
  · intro hx
    constructor
    · simp [connectSuccessCmds, initRoomDispatch, hx, createRoomCmds, hws, hconn]
    · simp [connectSuccessCmds, hx, createRoomCmds, hws, hconn, hgid]
  · intro ho
    constructor
    · simp [connectSuccessCmds, initRoomDispatch, ho, joinRoomCmds, hws, hconn]
    · simp [connectSuccessCmds, ho, joinRoomCmds, hws, hconn, hgid]

/-- Witness for the amended C4: the reconnected store with symbol X issues
exactly the create command from the initializeGame site. -/
theorem c4_witness :
    connectSuccessCmds ConnectSite.initializeGameSite reconnectedStore "g1"
      = [ClientCmd.create_room "g1"] :=
  ((c4_room_commands_by_site reconnectedStore "g1"
      ⟨some WsReadyState.opened, 0⟩ rfl rfl (by decide)).1 rfl).1

/-- Counterexample to C1 as stated: in the mid-game store cell (0,0) is
already occupied by X and `canMakeMove` is true, yet the store's `makeMove`
does not fail fast — it performs the network call and applies the response. -/
theorem c1_counterexample :
    canMakeMove midGameStore = true ∧
      cellOccupied midGameStore.board 0 0 = true ∧
      (makeMove midGameStore 0 0 (some respR1)).apiCalled = true ∧
      (makeMove midGameStore 0 0 (some respR1)).result = Except.ok respR1 :=
  ⟨rfl, rfl, rfl, rfl⟩

/-- C1 amended: the store's `makeMove` fails fast, without any network call
and without mutation, whenever `canMakeMove` is false or no game/player id is
set (null `currentGame` or empty `myPlayerId`); the occupied-cell guard is
not in `makeMove` but in the component's `handleCellClick`, which returns
without invoking `makeMove` — hence without any network call — whenever
`canMakeMove` is false or the target cell is non-empty. -/
theorem c1_fail_fast_gate (s : Store) (row col : Nat)
    (resp : Option MoveResponse) :
    (canMakeMove s = false ∨ s.currentGame = none ∨ s.myPlayerId = "" →
      (makeMove s row col resp).apiCalled = false ∧
        (makeMove s row col resp).store = s) ∧
    (canMakeMove s = false ∨ cellOccupied s.board row col = true →
      handleCellClick s row col resp = (s, false)) := by
  constructor
  · intro h
    by_cases h1 : s.currentGame = none ∨ s.myPlayerId = ""
    · simp [makeMove, h1]
    · have hcm : canMakeMove s = false := by
        rcases h with h | h | h
        · exact h
        · exact absurd (Or.inl h) h1
        · exact absurd (Or.inr h) h1
      simp [makeMove, h1, hcm]
  · intro h
    simp [handleCellClick, h]

/-- Witness for the amended C1: with the initial (waiting) store the gate is
closed, so no network call happens and the store is unchanged; with the
mid-game store whose player id is empty — where `canMakeMove` is still true —
`makeMove` throws before any network call and without mutation; and a click
on the occupied cell of the mid-game store never reaches `makeMove`. -/
theorem c1_witness :
    ((makeMove initialStore 0 0 none).apiCalled = false ∧
        (makeMove initialStore 0 0 none).store = initialStore) ∧
      (canMakeMove noIdStore = true ∧
        (makeMove noIdStore 0 1 (some respR1)).apiCalled = false ∧
        (makeMove noIdStore 0 1 (some respR1)).store = noIdStore) ∧
      handleCellClick midGameStore 0 0 (some respR1) = (midGameStore, false) :=
  ⟨(c1_fail_fast_gate initialStore 0 0 none).1 (Or.inl rfl),
    ⟨rfl, (c1_fail_fast_gate noIdStore 0 1 (some respR1)).1
      (Or.inr (Or.inr rfl))⟩,
    (c1_fail_fast_gate midGameStore 0 0 (some respR1)).2 (Or.inr rfl)⟩

/-- Counterexample to C7 as stated: `joinGame` applied to a store whose local
symbol is already X overwrites it with O — the reassignment is performed, not
rejected. -/
theorem c7_counterexample :
    midGameStore.mySymbol = some Sym.X ∧
      (joinGameApply midGameStore gameG1 "p2").mySymbol = some Sym.O :=
  ⟨rfl, rfl⟩

/-- C7 amended: the store has no rejecting setter for the local symbol —
`joinGame` and `createGame` assign it unconditionally (overwriting any earlier
value); only `initializeGame`'s derivation path is guarded, leaving an
already-set symbol unchanged. -/
theorem c7_symbol_assignment :
    (∀ (s : Store) (g : Game) (p : String),
      (joinGameApply s g p).mySymbol = some Sym.O) ∧
    (∀ (s : Store) (g : Game) (p : String),
      (createGameApply s g p).mySymbol = some Sym.X) ∧
    (∀ (s : Store) (gid : String) (sym : Sym), s.mySymbol = some sym →
      ((initRoomDispatch s gid).1).mySymbol = some sym) := by
  refine ⟨fun s g p => rfl, fun s g p => rfl, ?_⟩
  intro s gid sym h
  cases sym <;> simp [initRoomDispatch, h]

/-- Witness for the amended C7: initializeGame's dispatch leaves the mid-game
store's symbol X in place. -/
theorem c7_witness :
    ((initRoomDispatch midGameStore "g1").1).mySymbol = some Sym.X :=
  c7_symbol_assignment.2.2 midGameStore "g1" Sym.X rfl

lemma oppSym_ne (t : Sym) : oppSym t ≠ t := by
  cases t <;> simp [oppSym]

lemma acceptedFromB_symbols (msgs : List MoveMadeMsg) :
    ∀ (s : Store) (t : Sym), s.currentPlayer = some t →
      acceptedFromB s msgs = true →
      msgs.map (fun m => m.symbol) = altSyms t msgs.length := by
  induction msgs with
  | nil => intro s t _ _; rfl
  | cons m rest ih =>
    intro s t hcur hacc
    simp only [acceptedFromB, Bool.and_eq_true, decide_eq_true_eq] at hacc
    obtain ⟨hsym, hrest⟩ := hacc
    have ht : t = m.symbol := by
      rw [hcur] at hsym
      exact Option.some.inj hsym
    subst ht
    have hcur2 : (applyMoveMade s m).currentPlayer = some (oppSym m.symbol) :=
      rfl
    simp only [List.map_cons, List.length_cons, altSyms, List.cons.injEq,
      true_and]
    exact ih (applyMoveMade s m) (oppSym m.symbol) hcur2 hrest

lemma acceptedFromB_adjacent (msgs : List MoveMadeMsg) :
    ∀ (s : Store) (i : Nat) (m1 m2 : MoveMadeMsg),
      acceptedFromB s msgs = true →
      msgs.get? i = some m1 → msgs.get? (i + 1) = some m2 →
      m1.symbol ≠ m2.symbol := by
  induction msgs with
  | nil =>
    intro s i m1 m2 _ h1 _
    simp at h1
  | cons m rest ih =>
    intro s i m1 m2 hacc h1 h2
    simp only [acceptedFromB, Bool.and_eq_true, decide_eq_true_eq] at hacc
    obtain ⟨hsym, hrest⟩ := hacc
    cases i with
    | zero =>
      have hm1 : m1 = m := by
        simp only [List.get?_cons_zero, Option.some.injEq] at h1
        exact h1.symm
      cases rest with
      | nil => simp at h2
      | cons mb rest2 =>
        have hm2 : m2 = mb := by
          simp only [List.get?_cons_succ, List.get?_cons_zero,
            Option.some.injEq] at h2
          exact h2.symm
        simp only [acceptedFromB, Bool.and_eq_true, decide_eq_true_eq] at hrest
        obtain ⟨hs2, _⟩ := hrest
        have hturn : (applyMoveMade s m).currentPlayer
            = some (oppSym m.symbol) := rfl
        rw [hturn] at hs2
        have hb : oppSym m.symbol = mb.symbol := Option.some.inj hs2
        rw [hm1, hm2, ← hb]
        exact (oppSym_ne m.symbol).symm
    | succ j =>
      exact ih (applyMoveMade s m) j m1 m2 hrest (by simpa using h1)
        (by simpa using h2)

/-- C8: the game-start event sets the turn to X; the move event for an
accepted move by symbol s sets the turn to the opposite of s; hence along any
sequence of accepted moves after game start the symbols are exactly the
strictly alternating sequence starting with X, and no two consecutive
accepted moves share a symbol. -/
theorem c8_turn_alternation :
    (∀ s : Store, (applyGameStarted s).currentPlayer = some Sym.X) ∧
    (∀ (s : Store) (m : MoveMadeMsg),
      (applyMoveMade s m).currentPlayer = some (oppSym m.symbol)) ∧
    (∀ (s : Store) (msgs : List MoveMadeMsg),
      acceptedFromB (applyGameStarted s) msgs = true →
      msgs.map (fun m => m.symbol) = altSyms Sym.X msgs.length ∧
      ∀ (i : Nat) (m1 m2 : MoveMadeMsg), msgs.get? i = some m1 →
        msgs.get? (i + 1) = some m2 → m1.symbol ≠ m2.symbol) := by
  refine ⟨fun s => rfl, fun s m => rfl, ?_⟩
  intro s msgs hacc
  exact ⟨acceptedFromB_symbols msgs (applyGameStarted s) Sym.X rfl hacc,
    fun i m1 m2 h1 h2 =>
      acceptedFromB_adjacent msgs (applyGameStarted s) i m1 m2 hacc h1 h2⟩

/-- Witness for C8: the concrete accepted two-move sequence X then O has
exactly the alternating symbols starting with X. -/
theorem c8_witness :
    wMsgs.map (fun m => m.symbol) = altSyms Sym.X wMsgs.length :=
  (c8_turn_alternation.2.2 initialStore wMsgs rfl).1

end ZizouGames
